import Mathlib

/-!
Verification of the GD&T (Geometric Dimensioning and Tolerancing) validation
engine of the stone_slab_cad repository, a shallow embedding of
`stone_slab_cad/utils/gdt_validation.py` and the specification data model of
`stone_slab_cad/utils/edge_treatment_specs.py`.

Modelling conventions:
* Python floats are modelled by `ℝ` (the validators use `math.tan`, `math.acos`
  and `numpy.std`, so rationals do not suffice).  Classification decisions
  (`if deviation > tolerance`) therefore use the classical order on `ℝ`.
* Python division raises `ZeroDivisionError` on a zero divisor; the two places
  where the source divides by a value that can be zero without a guard
  (`DripEdgeValidator.validate_groove_position` and
  `GDnTValidationEngine.generate_report_summary`) are modelled as `Option`,
  returning `none` exactly when the source would raise.  All other divisions in
  the source are by positive constants or sit behind a `tolerance > 0` guard.
* String interpolation of floating point numbers (the `message` fields and the
  numeric part of one recommendation string) is elided; `check_name` and the
  recommendation lists, which the source builds from string literals, are kept.
* Python dicts are modelled as association lists in insertion order; the
  `timestamp` field (wall-clock time) and the measurement-point lists that no
  validator reads are elided.
* The SVD/PCA line fit of `EdgeSquarenessValidator.calculate_edge_vector`
  (numpy.linalg.svd) is kept abstract: the engine is parametrised by the
  fitting function `svdFit`; the guard for fewer than two points and everything
  downstream of the fitted direction is modelled concretely.
-/

namespace StoneSlabCad

/-- Validation result status (`gdt_validation.ValidationStatus`). -/
inductive ValidationStatus where
  | PASS
  | WARN
  | FAIL
  | NOT_CHECKED
deriving DecidableEq, Repr

/-- Four perimeter orientations (`edge_treatment_specs.EdgeOrientation`). -/
inductive EdgeOrientation where
  | ANTERIOR
  | POSTERIOR
  | PORT
  | STARBOARD
deriving DecidableEq, Repr

/-- The `.value` string of each `EdgeOrientation` member. -/
def EdgeOrientation.value : EdgeOrientation → String
  | .ANTERIOR => "front"
  | .POSTERIOR => "rear"
  | .PORT => "left"
  | .STARBOARD => "right"

/-- Python `math.radians`: degrees to radians. -/
noncomputable def radians (x : ℝ) : ℝ := x * Real.pi / 180

/-- C8 chamfer profile specification (`edge_treatment_specs.ChamferSpecification`).
`width_mm` is `Optional[float]` in the source but `__post_init__` always
overwrites it with the derived value, so it is a plain real here, set by
`ChamferSpecification.make`. -/
structure ChamferSpecification where
  depth_mm : ℝ
  angle_degrees : ℝ
  width_mm : ℝ
  tolerance_mm : ℝ
  surface_roughness_ra : ℝ

/-- Constructing a `ChamferSpecification`: dataclass construction followed by
`__post_init__`, which sets `width_mm = depth_mm * tan(radians(angle_degrees/2)) * 2`. -/
noncomputable def ChamferSpecification.make
    (depth_mm angle_degrees tolerance_mm surface_roughness_ra : ℝ) :
    ChamferSpecification :=
  let half_angle_rad := radians (angle_degrees / 2)
  { depth_mm := depth_mm
    angle_degrees := angle_degrees
    width_mm := depth_mm * Real.tan half_angle_rad * 2
    tolerance_mm := tolerance_mm
    surface_roughness_ra := surface_roughness_ra }

/-- GD&T tolerance bundle (`edge_treatment_specs.GDnTSpecification`). -/
structure GDnTSpecification where
  profile_tolerance_mm : ℝ
  angular_tolerance_deg : ℝ
  parallelism_tolerance_mm : ℝ
  perpendicularity_tolerance_mm : ℝ
  symmetry_tolerance_mm : ℝ
  position_tolerance_mm : ℝ
  flatness_tolerance_mm : ℝ
  cylindricity_tolerance_mm : ℝ

/-- Numeric fields of `edge_treatment_specs.DripEdgeSpecification`
(the string-valued material/finish/integration fields play no role in
validation and are elided). -/
structure DripEdgeSpecification where
  overhang_mm : ℝ
  flashing_height_mm : ℝ
  groove_depth_mm : ℝ
  groove_width_mm : ℝ
  distance_from_edge_mm : ℝ
  thickness_mm : ℝ

/-- A 3D measurement point (`gdt_validation.MeasurementPoint`). -/
structure MeasurementPoint where
  x : ℝ
  y : ℝ
  z : ℝ
  uncertainty_mm : ℝ

/-- Chamfer measurement data (`gdt_validation.ChamferMeasurement`); the three
measurement-point lists are read by no validator and are elided. -/
structure ChamferMeasurement where
  edge_orientation : EdgeOrientation
  depth_mm : ℝ
  angle_degrees : ℝ
  width_mm : ℝ
  roughness_ra : Option ℝ

/-- Result of one GD&T check (`gdt_validation.ValidationResult`); the
`message` field (pure float formatting) is elided. -/
structure ValidationResult where
  check_name : String
  status : ValidationStatus
  measured_value : ℝ
  nominal_value : ℝ
  deviation : ℝ
  tolerance : ℝ
  compliance_percentage : ℝ
  recommendations : List String := []

/-- Complete validation report (`gdt_validation.EdgeValidationReport`);
the per-orientation dicts are association lists in insertion order. -/
structure EdgeValidationReport where
  specification_id : String
  chamfer_results : List (EdgeOrientation × List ValidationResult) := []
  squareness_results : List (EdgeOrientation × ValidationResult) := []
  drip_edge_results : List (EdgeOrientation × List ValidationResult) := []
  total_checks : ℕ := 0
  passed_checks : ℕ := 0
  warning_checks : ℕ := 0
  failed_checks : ℕ := 0

/-- The derived `EdgeValidationReport.overall_status` property. -/
def EdgeValidationReport.overall_status (r : EdgeValidationReport) : ValidationStatus :=
  if r.failed_checks > 0 then .FAIL
  else if r.warning_checks > 0 then .WARN
  else if r.passed_checks > 0 then .PASS
  else .NOT_CHECKED

/-- `ChamferValidator.validate_depth`.  The `self.spec` field of the validator
object is passed explicitly.  The numeric interpolation inside the first
`FAIL` recommendation string is elided. -/
noncomputable def validate_depth (spec : ChamferSpecification)
    (measurement : ChamferMeasurement) : ValidationResult :=
  let deviation := |measurement.depth_mm - spec.depth_mm|
  let tolerance := spec.tolerance_mm
  let status : ValidationStatus :=
    if deviation > tolerance * 2 then .FAIL
    else if deviation > tolerance then .WARN
    else .PASS
  let compliance : ℝ :=
    if tolerance > 0 then max 0 (100 - deviation / tolerance * 100) else 100
  let recommendations : List String :=
    if status = .FAIL then
      ["Adjust CNC tool offset", "Verify tool wear and replace if necessary"]
    else if status = .WARN then
      ["Monitor tool wear closely", "Check coolant flow and concentration"]
    else []
  { check_name := "Chamfer Depth - " ++ measurement.edge_orientation.value
    status := status
    measured_value := measurement.depth_mm
    nominal_value := spec.depth_mm
    deviation := deviation
    tolerance := tolerance
    compliance_percentage := compliance
    recommendations := recommendations }

/-- `ChamferValidator.validate_angle` (fixed angular tolerance 0.5°). -/
noncomputable def validate_angle (spec : ChamferSpecification)
    (measurement : ChamferMeasurement) : ValidationResult :=
  let deviation := |measurement.angle_degrees - spec.angle_degrees|
  let tolerance : ℝ := 0.5
  let status : ValidationStatus :=
    if deviation > tolerance * 2 then .FAIL
    else if deviation > tolerance then .WARN
    else .PASS
  let compliance : ℝ :=
    if tolerance > 0 then max 0 (100 - deviation / tolerance * 100) else 100
  let recommendations : List String :=
    if status = .FAIL then
      ["Check CNC tool orientation/tilt", "Verify fixture alignment and clamping"]
    else []
  { check_name := "Chamfer Angle - " ++ measurement.edge_orientation.value
    status := status
    measured_value := measurement.angle_degrees
    nominal_value := spec.angle_degrees
    deviation := deviation
    tolerance := tolerance
    compliance_percentage := compliance
    recommendations := recommendations }

/-- `ChamferValidator.validate_surface_roughness`: `NOT_CHECKED` when the
measurement has no roughness reading, otherwise a binary PASS/WARN check with
fixed tolerance 0.5 (compliance uses a factor 50, as in the source). -/
noncomputable def validate_surface_roughness (spec : ChamferSpecification)
    (measurement : ChamferMeasurement) : ValidationResult :=
  match measurement.roughness_ra with
  | none =>
    { check_name := "Surface Roughness - " ++ measurement.edge_orientation.value
      status := .NOT_CHECKED
      measured_value := 0
      nominal_value := spec.surface_roughness_ra
      deviation := 0
      tolerance := 0.5
      compliance_percentage := 0
      recommendations := ["Perform surface roughness measurement"] }
  | some roughness =>
    let deviation := |roughness - spec.surface_roughness_ra|
    let tolerance : ℝ := 0.5
    let status : ValidationStatus :=
      if deviation ≤ tolerance then .PASS else .WARN
    let compliance : ℝ := max 0 (100 - deviation / tolerance * 50)
    { check_name := "Surface Roughness - " ++ measurement.edge_orientation.value
      status := status
      measured_value := roughness
      nominal_value := spec.surface_roughness_ra
      deviation := deviation
      tolerance := tolerance
      compliance_percentage := compliance
      recommendations := [] }

/-- `numpy.mean` of a list of floats. -/
noncomputable def npMean (l : List ℝ) : ℝ := l.sum / l.length

/-- `numpy.std` of a list of floats: the population standard deviation
(default `ddof=0`). -/
noncomputable def npStd (l : List ℝ) : ℝ :=
  Real.sqrt (npMean (l.map (fun x => (x - npMean l) ^ 2)))

/-- `ChamferValidator.validate_profile_consistency`: `NOT_CHECKED` for fewer
than two measurements, otherwise classification of
`max(std(depths), std(angles)/10)` against the fixed profile tolerance 0.1. -/
noncomputable def validate_profile_consistency
    (measurements : List ChamferMeasurement) : ValidationResult :=
  if measurements.length < 2 then
    { check_name := "Chamfer Profile Consistency"
      status := .NOT_CHECKED
      measured_value := 0
      nominal_value := 0
      deviation := 0
      tolerance := 0
      compliance_percentage := 0
      recommendations := [] }
  else
    let depths := measurements.map (·.depth_mm)
    let angles := measurements.map (·.angle_degrees)
    let depth_std := npStd depths
    let angle_std := npStd angles
    let profile_tolerance : ℝ := 0.1
    let max_deviation := max depth_std (angle_std / 10)
    let status : ValidationStatus :=
      if max_deviation > profile_tolerance * 2 then .FAIL
      else if max_deviation > profile_tolerance then .WARN
      else .PASS
    let compliance : ℝ := max 0 (100 - max_deviation / profile_tolerance * 100)
    { check_name := "Chamfer Profile Consistency (All Edges)"
      status := status
      measured_value := max_deviation
      nominal_value := 0
      deviation := max_deviation
      tolerance := profile_tolerance
      compliance_percentage := compliance
      recommendations := [if status ≠ .PASS then "Check machine calibration" else ""] }

/-- A 3-component vector of floats (`numpy` arrays of length 3 in the source). -/
structure Vec3 where
  x : ℝ
  y : ℝ
  z : ℝ

/-- Dot product (`numpy.dot`). -/
def Vec3.dot (a b : Vec3) : ℝ := a.x * b.x + a.y * b.y + a.z * b.z

/-- Euclidean norm (`numpy.linalg.norm`). -/
noncomputable def Vec3.norm (a : Vec3) : ℝ := Real.sqrt (a.dot a)

/-- Scalar multiplication of a vector. -/
def Vec3.smul (c : ℝ) (a : Vec3) : Vec3 := ⟨c * a.x, c * a.y, c * a.z⟩

/-- Componentwise division of a vector by its norm (`v / np.linalg.norm(v)`).
For a zero vector numpy would produce NaN components; all theorems below about
normalised vectors assume a nonzero input. -/
noncomputable def Vec3.normalize (a : Vec3) : Vec3 := Vec3.smul (1 / a.norm) a

/-- `EdgeSquarenessValidator.calculate_perpendicularity`: angular deviation of
the edge direction from the reference normal, reported as a linear deviation
over a 100 mm gauge length (`tan(angle) * 100`).  The source also computes
`angle_deg = math.degrees(angle_rad)` but never uses it. -/
noncomputable def calculate_perpendicularity (edge_vector reference_normal : Vec3) : ℝ :=
  let e := edge_vector.normalize
  let n := reference_normal.normalize
  let dot_product := |e.dot n|
  let angle_rad := Real.arccos (min 1 dot_product)
  Real.tan angle_rad * 100

/-- `EdgeSquarenessValidator.calculate_edge_vector`: returns `[0, 0, 1]` for
fewer than two points, otherwise the first principal direction of the centred
point cloud.  The SVD line fit itself is kept abstract as `svdFit`. -/
noncomputable def calculate_edge_vector (svdFit : List MeasurementPoint → Vec3)
    (edge_points : List MeasurementPoint) : Vec3 :=
  if edge_points.length < 2 then ⟨0, 0, 1⟩ else svdFit edge_points

/-- `EdgeSquarenessValidator.validate_edge_squareness`. -/
noncomputable def validate_edge_squareness (svdFit : List MeasurementPoint → Vec3)
    (spec : GDnTSpecification) (edge_points : List MeasurementPoint)
    (reference_normal : Vec3) (orientation : EdgeOrientation) : ValidationResult :=
  let edge_vector := calculate_edge_vector svdFit edge_points
  let deviation_mm := calculate_perpendicularity edge_vector reference_normal
  let tolerance := spec.perpendicularity_tolerance_mm
  let status : ValidationStatus :=
    if deviation_mm > tolerance * 2 then .FAIL
    else if deviation_mm > tolerance then .WARN
    else .PASS
  let compliance : ℝ :=
    if tolerance > 0 then max 0 (100 - deviation_mm / tolerance * 100) else 100
  let recommendations : List String :=
    if status = .FAIL then
      ["Check machine axis alignment", "Verify workpiece fixture squareness"]
    else []
  { check_name := "Edge Squareness - " ++ orientation.value
    status := status
    measured_value := deviation_mm
    nominal_value := 0
    deviation := deviation_mm
    tolerance := tolerance
    compliance_percentage := compliance
    recommendations := recommendations }

/-- `DripEdgeValidator.validate_overhang_distance` (fixed tolerance 2 mm,
three-tier classification including a FAIL tier). -/
noncomputable def validate_overhang_distance (drip_spec : DripEdgeSpecification)
    (measured_overhang_mm : ℝ) (orientation : EdgeOrientation) : ValidationResult :=
  let deviation := |measured_overhang_mm - drip_spec.overhang_mm|
  let tolerance : ℝ := 2.0
  let status : ValidationStatus :=
    if deviation > tolerance * 2 then .FAIL
    else if deviation > tolerance then .WARN
    else .PASS
  let compliance : ℝ := max 0 (100 - deviation / tolerance * 100)
  { check_name := "Drip Edge Overhang - " ++ orientation.value
    status := status
    measured_value := measured_overhang_mm
    nominal_value := drip_spec.overhang_mm
    deviation := deviation
    tolerance := tolerance
    compliance_percentage := compliance
    recommendations := [if status ≠ .PASS then "Adjust flashing bracket position" else ""] }

/-- `DripEdgeValidator.validate_groove_position`: binary PASS/WARN.  The
compliance formula divides by `position_tolerance_mm` without a guard, so the
source raises `ZeroDivisionError` when that tolerance is zero; this is the
`none` case. -/
noncomputable def validate_groove_position (drip_spec : DripEdgeSpecification)
    (gdt_spec : GDnTSpecification) (measured_distance_from_edge_mm : ℝ)
    (orientation : EdgeOrientation) : Option ValidationResult :=
  let deviation := |measured_distance_from_edge_mm - drip_spec.distance_from_edge_mm|
  let tolerance := gdt_spec.position_tolerance_mm
  let status : ValidationStatus :=
    if deviation ≤ tolerance then .PASS else .WARN
  if tolerance = 0 then none
  else
    some
      { check_name := "Drip Groove Position - " ++ orientation.value
        status := status
        measured_value := measured_distance_from_edge_mm
        nominal_value := drip_spec.distance_from_edge_mm
        deviation := deviation
        tolerance := tolerance
        compliance_percentage := max 0 (100 - deviation / tolerance * 100)
        recommendations := [] }

/-- `DripEdgeValidator.validate_groove_dimensions`: two binary PASS/WARN checks
(width then depth), each with fixed tolerance 0.5. -/
noncomputable def validate_groove_dimensions (drip_spec : DripEdgeSpecification)
    (measured_width_mm measured_depth_mm : ℝ) (orientation : EdgeOrientation) :
    List ValidationResult :=
  let width_deviation := |measured_width_mm - drip_spec.groove_width_mm|
  let width_tolerance : ℝ := 0.5
  let width_status : ValidationStatus :=
    if width_deviation ≤ width_tolerance then .PASS else .WARN
  let depth_deviation := |measured_depth_mm - drip_spec.groove_depth_mm|
  let depth_tolerance : ℝ := 0.5
  let depth_status : ValidationStatus :=
    if depth_deviation ≤ depth_tolerance then .PASS else .WARN
  [{ check_name := "Drip Groove Width - " ++ orientation.value
     status := width_status
     measured_value := measured_width_mm
     nominal_value := drip_spec.groove_width_mm
     deviation := width_deviation
     tolerance := width_tolerance
     compliance_percentage := max 0 (100 - width_deviation / width_tolerance * 100) },
   { check_name := "Drip Groove Depth - " ++ orientation.value
     status := depth_status
     measured_value := measured_depth_mm
     nominal_value := drip_spec.groove_depth_mm
     deviation := depth_deviation
     tolerance := depth_tolerance
     compliance_percentage := max 0 (100 - depth_deviation / depth_tolerance * 100) }]

/-- The per-orientation scalar drip-edge readings
(`Dict[str, float]` with the four recognised keys; a missing key is `none`). -/
structure DripMeasurements where
  overhang_mm : Option ℝ := none
  groove_distance_from_edge_mm : Option ℝ := none
  groove_width_mm : Option ℝ := none
  groove_depth_mm : Option ℝ := none

/-- The slice of `edge_treatment_specs.ManufacturingProcessSpec` that
`GDnTValidationEngine` reads. -/
structure ManufacturingProcessSpec where
  specification_id : String
  description : String
  c8_chamfer : ChamferSpecification
  gdt_spec : GDnTSpecification
  drip_edges : List (EdgeOrientation × DripEdgeSpecification)

/-- Python dict lookup on an orientation-keyed association list. -/
def dictLookup {α : Type} (o : EdgeOrientation) :
    List (EdgeOrientation × α) → Option α
  | [] => none
  | (k, v) :: rest => if k = o then some v else dictLookup o rest

/-- The counter-update pattern used by `validate_all` for chamfer,
consistency and squareness results: PASS, WARN and FAIL each bump their
counter, NOT_CHECKED bumps none. -/
def tally (report : EdgeValidationReport) (r : ValidationResult) : EdgeValidationReport :=
  if r.status = .PASS then { report with passed_checks := report.passed_checks + 1 }
  else if r.status = .WARN then { report with warning_checks := report.warning_checks + 1 }
  else if r.status = .FAIL then { report with failed_checks := report.failed_checks + 1 }
  else report

/-- The counter-update pattern used by `validate_all` in the drip-edge phase:
only PASS and WARN bump a counter; a FAIL result bumps none. -/
def tallyPassWarn (report : EdgeValidationReport) (r : ValidationResult) :
    EdgeValidationReport :=
  if r.status = .PASS then { report with passed_checks := report.passed_checks + 1 }
  else if r.status = .WARN then { report with warning_checks := report.warning_checks + 1 }
  else report

/-- The chamfer loop of `GDnTValidationEngine.validate_all`: for each
orientation run depth, angle and roughness checks, add three to
`total_checks`, store the three results and fold them into the counters. -/
noncomputable def chamferPhase (spec : ChamferSpecification)
    (l : List (EdgeOrientation × ChamferMeasurement))
    (report : EdgeValidationReport) : EdgeValidationReport :=
  match l with
  | [] => report
  | (orientation, measurement) :: rest =>
    let depth_result := validate_depth spec measurement
    let angle_result := validate_angle spec measurement
    let roughness_result := validate_surface_roughness spec measurement
    let results := [depth_result, angle_result, roughness_result]
    let report := { report with
      total_checks := report.total_checks + 3
      chamfer_results := report.chamfer_results ++ [(orientation, results)] }
    let report := results.foldl tally report
    chamferPhase spec rest report

/-- The edge-squareness loop of `GDnTValidationEngine.validate_all`. -/
noncomputable def squarenessPhase (svdFit : List MeasurementPoint → Vec3)
    (gdt_spec : GDnTSpecification) (reference_normal : Vec3)
    (l : List (EdgeOrientation × List MeasurementPoint))
    (report : EdgeValidationReport) : EdgeValidationReport :=
  match l with
  | [] => report
  | (orientation, edge_points) :: rest =>
    let result := validate_edge_squareness svdFit gdt_spec edge_points reference_normal orientation
    let report := { report with
      squareness_results := report.squareness_results ++ [(orientation, result)]
      total_checks := report.total_checks + 1 }
    let report := tally report result
    squarenessPhase svdFit gdt_spec reference_normal rest report

/-- The overhang block of the drip-edge loop in
`GDnTValidationEngine.validate_all`: if an overhang reading is present,
validate it, count the check, and bump only the PASS/WARN counters.  Returns
the result list so far and the updated counters. -/
noncomputable def dripOverhangStep (drip_spec : DripEdgeSpecification)
    (orientation : EdgeOrientation) (ov : Option ℝ)
    (report : EdgeValidationReport) :
    List ValidationResult × EdgeValidationReport :=
  match ov with
  | none => ([], report)
  | some v =>
    let result := validate_overhang_distance drip_spec v orientation
    ([result],
     tallyPassWarn { report with total_checks := report.total_checks + 1 } result)

/-- The groove-position block of the drip-edge loop: if a distance-from-edge
reading is present, run the (fallible) groove position check, append its
result and bump only the PASS/WARN counters; `none` when the check raises. -/
noncomputable def dripGroovePosStep (drip_spec : DripEdgeSpecification)
    (gdt_spec : GDnTSpecification) (orientation : EdgeOrientation)
    (gp : Option ℝ) (acc : List ValidationResult × EdgeValidationReport) :
    Option (List ValidationResult × EdgeValidationReport) :=
  match gp with
  | none => some acc
  | some v =>
    match validate_groove_position drip_spec gdt_spec v orientation with
    | none => none
    | some result =>
      some (acc.1 ++ [result],
        tallyPassWarn { acc.2 with total_checks := acc.2.total_checks + 1 } result)

/-- The groove-dimension block of the drip-edge loop: when both width and
depth readings are present, run the two dimension checks, append them, count
them, and bump only the PASS/WARN counters. -/
noncomputable def dripDimsStep (drip_spec : DripEdgeSpecification)
    (orientation : EdgeOrientation) (gw gd : Option ℝ)
    (acc : List ValidationResult × EdgeValidationReport) :
    List ValidationResult × EdgeValidationReport :=
  match gw, gd with
  | some w, some d =>
    let dim_results := validate_groove_dimensions drip_spec w d orientation
    (acc.1 ++ dim_results,
      dim_results.foldl tallyPassWarn
        { acc.2 with total_checks := acc.2.total_checks + dim_results.length })
  | _, _ => acc

/-- Drip-edge validation of one orientation inside
`GDnTValidationEngine.validate_all`: overhang, then groove position, then
groove dimensions, each guarded by the presence of its reading.  Returns the
result list for this orientation and the updated counters, or `none` when the
groove position check raises (`position_tolerance_mm = 0`). -/
noncomputable def dripStep (drip_spec : DripEdgeSpecification)
    (gdt_spec : GDnTSpecification) (orientation : EdgeOrientation)
    (m : DripMeasurements) (report : EdgeValidationReport) :
    Option (List ValidationResult × EdgeValidationReport) :=
  (dripGroovePosStep drip_spec gdt_spec orientation m.groove_distance_from_edge_mm
      (dripOverhangStep drip_spec orientation m.overhang_mm report)).map
    (dripDimsStep drip_spec orientation m.groove_width_mm m.groove_depth_mm)

/-- The drip-edge loop of `GDnTValidationEngine.validate_all`: orientations
without a configured drip-edge spec are skipped entirely; for the others the
result list (possibly empty) is stored under the orientation. -/
noncomputable def dripPhase (gdt_spec : GDnTSpecification)
    (drip_edges : List (EdgeOrientation × DripEdgeSpecification))
    (l : List (EdgeOrientation × DripMeasurements))
    (report : EdgeValidationReport) : Option EdgeValidationReport :=
  match l with
  | [] => some report
  | (orientation, m) :: rest =>
    match dictLookup orientation drip_edges with
    | none => dripPhase gdt_spec drip_edges rest report
    | some drip_spec =>
      match dripStep drip_spec gdt_spec orientation m report with
      | none => none
      | some (results, report) =>
        dripPhase gdt_spec drip_edges rest
          { report with drip_edge_results := report.drip_edge_results ++ [(orientation, results)] }

/-- The drip-free prefix of `GDnTValidationEngine.validate_all`: chamfer loop,
one cross-edge profile consistency check (counted but stored nowhere), then
the squareness loop against the fixed reference normal `[0, 1, 0]`. -/
noncomputable def preDripReport (svdFit : List MeasurementPoint → Vec3)
    (spec : ManufacturingProcessSpec)
    (chamfer_measurements : List (EdgeOrientation × ChamferMeasurement))
    (edge_point_data : List (EdgeOrientation × List MeasurementPoint)) :
    EdgeValidationReport :=
  let report : EdgeValidationReport := { specification_id := spec.specification_id }
  let report := chamferPhase spec.c8_chamfer chamfer_measurements report
  let all_chamfer_measurements := chamfer_measurements.map Prod.snd
  let consistency_result := validate_profile_consistency all_chamfer_measurements
  let report := tally { report with total_checks := report.total_checks + 1 } consistency_result
  let reference_normal : Vec3 := ⟨0, 1, 0⟩
  squarenessPhase svdFit spec.gdt_spec reference_normal edge_point_data report

/-- `GDnTValidationEngine.validate_all`: the drip-free prefix above, then the
optional drip-edge loop (skipped when the measurement dict is absent or empty,
or no drip edges are configured).  Returns `none` exactly when the source
raises. -/
noncomputable def validate_all (svdFit : List MeasurementPoint → Vec3)
    (spec : ManufacturingProcessSpec)
    (chamfer_measurements : List (EdgeOrientation × ChamferMeasurement))
    (edge_point_data : List (EdgeOrientation × List MeasurementPoint))
    (drip_edge_measurements : Option (List (EdgeOrientation × DripMeasurements))) :
    Option EdgeValidationReport :=
  let report := preDripReport svdFit spec chamfer_measurements edge_point_data
  match drip_edge_measurements with
  | none => some report
  | some dms =>
    if dms.isEmpty || spec.drip_edges.isEmpty then some report
    else dripPhase spec.gdt_spec spec.drip_edges dms report

/-- Python float division, which raises `ZeroDivisionError` on a zero
divisor. -/
noncomputable def pyDiv (a b : ℝ) : Option ℝ := if b = 0 then none else some (a / b)

/-- The arithmetic of `GDnTValidationEngine.generate_report_summary`: the
three percentage fields `passed/total*100`, `warnings/total*100`,
`failed/total*100`, each an unguarded division by `total_checks`.  The
surrounding string assembly is elided; the result is `none` exactly when the
source raises `ZeroDivisionError`. -/
noncomputable def generate_report_summary (report : EdgeValidationReport) :
    Option (ℝ × ℝ × ℝ) :=
  match pyDiv report.passed_checks report.total_checks,
        pyDiv report.warning_checks report.total_checks,
        pyDiv report.failed_checks report.total_checks with
  | some p, some w, some f => some (p * 100, w * 100, f * 100)
  | _, _, _ => none

section ConcreteInputs

/-- The standard C8 chamfer specification (depth 8 mm, 45°, tolerance 0.5 mm,
roughness 3.2 μm Ra), as built by `ChamferSpecification()` defaults. -/
noncomputable def specC8 : ChamferSpecification :=
  ChamferSpecification.make 8 45 0.5 3.2

/-- A chamfer specification with a zero depth tolerance. -/
noncomputable def specTol0 : ChamferSpecification :=
  ChamferSpecification.make 8 45 0 3.2

/-- A front-edge measurement exactly at the C8 nominal, roughness unmeasured. -/
noncomputable def measAt8 : ChamferMeasurement :=
  { edge_orientation := .ANTERIOR
    depth_mm := 8
    angle_degrees := 45
    width_mm := 16
    roughness_ra := none }

/-- A rear-edge measurement exactly at the C8 nominal, roughness unmeasured. -/
noncomputable def measAt8post : ChamferMeasurement :=
  { edge_orientation := .POSTERIOR
    depth_mm := 8
    angle_degrees := 45
    width_mm := 16
    roughness_ra := none }

/-- Scenario A of the spec: measured depth 8.4 against the C8 nominal. -/
noncomputable def measDepth84 : ChamferMeasurement :=
  { edge_orientation := .ANTERIOR
    depth_mm := 8.4
    angle_degrees := 45
    width_mm := 16
    roughness_ra := some 3.2 }

end ConcreteInputs

/-- Claim C1, counterexample: with `tolerance_mm = 0` and a measurement exactly
at nominal, the deviation equals `2 * tolerance` yet `validate_depth` returns
PASS, not WARN, because the WARN band `tolerance < d ≤ 2 * tolerance` is empty
when the tolerance is zero. -/
theorem c1_counterexample :
    (validate_depth specTol0 measAt8).deviation = 2 * specTol0.tolerance_mm ∧
    (validate_depth specTol0 measAt8).status = .PASS := by
  constructor
  · show |measAt8.depth_mm - specTol0.depth_mm| = 2 * specTol0.tolerance_mm
    norm_num [measAt8, specTol0, ChamferSpecification.make]
  · show (if |measAt8.depth_mm - specTol0.depth_mm| > specTol0.tolerance_mm * 2 then
        ValidationStatus.FAIL
      else if |measAt8.depth_mm - specTol0.depth_mm| > specTol0.tolerance_mm then
        ValidationStatus.WARN
      else ValidationStatus.PASS) = .PASS
    norm_num [measAt8, specTol0, ChamferSpecification.make]

/-- Claim C1 (amended): `validate_depth` reports `deviation = |measured − nominal|`
and `tolerance = spec.tolerance_mm`, classifies Pass for `d ≤ t`, Warn for
`t < d ≤ 2t`, Fail for `d > 2t`; the boundary `d = t` is Pass, and `d = 2t` is
Warn provided the tolerance is positive. -/
theorem c1_validate_depth_classification (spec : ChamferSpecification)
    (measurement : ChamferMeasurement) :
    (validate_depth spec measurement).deviation =
      |measurement.depth_mm - spec.depth_mm| ∧
    (validate_depth spec measurement).tolerance = spec.tolerance_mm ∧
    (|measurement.depth_mm - spec.depth_mm| ≤ spec.tolerance_mm →
      (validate_depth spec measurement).status = .PASS) ∧
    (spec.tolerance_mm < |measurement.depth_mm - spec.depth_mm| →
      |measurement.depth_mm - spec.depth_mm| ≤ 2 * spec.tolerance_mm →
      (validate_depth spec measurement).status = .WARN) ∧
    (2 * spec.tolerance_mm < |measurement.depth_mm - spec.depth_mm| →
      (validate_depth spec measurement).status = .FAIL) ∧
    (|measurement.depth_mm - spec.depth_mm| = spec.tolerance_mm →
      (validate_depth spec measurement).status = .PASS) ∧
    (0 < spec.tolerance_mm →
      |measurement.depth_mm - spec.depth_mm| = 2 * spec.tolerance_mm →
      (validate_depth spec measurement).status = .WARN) := by
  have hd0 : 0 ≤ |measurement.depth_mm - spec.depth_mm| := abs_nonneg _
  have hstat : (validate_depth spec measurement).status =
      (if |measurement.depth_mm - spec.depth_mm| > spec.tolerance_mm * 2 then .FAIL
       else if |measurement.depth_mm - spec.depth_mm| > spec.tolerance_mm then .WARN
       else .PASS) := rfl
  refine ⟨rfl, rfl, ?_, ?_, ?_, ?_, ?_⟩
  · intro h
    rw [hstat]
    split_ifs <;> first | rfl | (exfalso; linarith)
  · intro h1 h2
    rw [hstat]
    split_ifs <;> first | rfl | (exfalso; linarith)
  · intro h
    rw [hstat]
    split_ifs <;> first | rfl | (exfalso; linarith)
  · intro h
    rw [hstat]
    split_ifs <;> first | rfl | (exfalso; linarith)
  · intro ht h
    rw [hstat]
    split_ifs <;> first | rfl | (exfalso; linarith)

/-- Witness for C1: Scenario A of the spec, deviation 0.4 ≤ 0.5 passes. -/
theorem c1_validate_depth_classification_witness :
    (validate_depth specC8 measDepth84).status = .PASS := by
  refine (c1_validate_depth_classification specC8 measDepth84).2.2.1 ?_
  show |measDepth84.depth_mm - specC8.depth_mm| ≤ specC8.tolerance_mm
  norm_num [measDepth84, specC8, ChamferSpecification.make, abs_le]

/-- Clamped compliance formula `max 0 (100 - d / t * c)`: always non-negative
and exactly 100 at zero deviation. -/
theorem max_compliance_ok (d t c : ℝ) :
    0 ≤ max 0 (100 - d / t * c) ∧ (d = 0 → max 0 (100 - d / t * c) = 100) := by
  refine ⟨le_max_left 0 _, fun h => ?_⟩
  subst h
  rw [zero_div, zero_mul, sub_zero]
  exact max_eq_right (by norm_num)

/-- Guarded compliance formula used by depth, angle and squareness checks. -/
theorem guarded_compliance_ok (d t c : ℝ) :
    0 ≤ (if t > 0 then max 0 (100 - d / t * c) else 100) ∧
    (d = 0 → (if t > 0 then max 0 (100 - d / t * c) else 100) = 100) := by
  constructor
  · split_ifs
    · exact (max_compliance_ok d t c).1
    · norm_num
  · intro h
    split_ifs
    · exact (max_compliance_ok d t c).2 h
    · rfl

/-- Compliance behaviour claimed by C3 (as amended): non-negative, and exactly
100 at zero deviation for every checked (non-NOT_CHECKED) result. -/
def complianceOK (r : ValidationResult) : Prop :=
  0 ≤ r.compliance_percentage ∧
  (r.deviation = 0 → r.status ≠ .NOT_CHECKED → r.compliance_percentage = 100)

/-- Claim C3, counterexample: the NOT_CHECKED result returned by
`validate_surface_roughness` for a missing roughness reading has deviation 0
but compliance 0, not 100. -/
theorem c3_counterexample :
    (validate_surface_roughness specC8 measAt8).deviation = 0 ∧
    (validate_surface_roughness specC8 measAt8).compliance_percentage = 0 ∧
    (validate_surface_roughness specC8 measAt8).compliance_percentage ≠ 100 := by
  refine ⟨rfl, rfl, ?_⟩
  show (0 : ℝ) ≠ 100
  norm_num

/-- Claim C3 (amended): every `ValidationResult` produced by any validator has
`compliance_percentage ≥ 0`, and `compliance_percentage = 100` whenever its
deviation is 0 and its status is not NOT_CHECKED (the two NOT_CHECKED results
carry deviation 0 with compliance 0). -/
theorem c3_compliance (spec : ChamferSpecification) :
    (∀ m, complianceOK (validate_depth spec m)) ∧
    (∀ m, complianceOK (validate_angle spec m)) ∧
    (∀ m, complianceOK (validate_surface_roughness spec m)) ∧
    (∀ ms, complianceOK (validate_profile_consistency ms)) ∧
    (∀ svdFit gdt pts n o, complianceOK (validate_edge_squareness svdFit gdt pts n o)) ∧
    (∀ ds v o, complianceOK (validate_overhang_distance ds v o)) ∧
    (∀ ds gdt v o r, validate_groove_position ds gdt v o = some r → complianceOK r) ∧
    (∀ ds w d o, ∀ r ∈ validate_groove_dimensions ds w d o, complianceOK r) := by
  refine ⟨?_, ?_, ?_, ?_, ?_, ?_, ?_, ?_⟩
  · intro m
    exact ⟨(guarded_compliance_ok _ _ _).1, fun h _ => (guarded_compliance_ok _ _ _).2 h⟩
  · intro m
    exact ⟨(guarded_compliance_ok _ _ _).1, fun h _ => (guarded_compliance_ok _ _ _).2 h⟩
  · intro m
    unfold validate_surface_roughness
    cases m.roughness_ra with
    | none => exact ⟨le_refl 0, fun _ hne => absurd rfl hne⟩
    | some ra =>
      exact ⟨(max_compliance_ok _ _ _).1, fun h _ => (max_compliance_ok _ _ _).2 h⟩
  · intro ms
    unfold validate_profile_consistency
    split_ifs with hlen
    · exact ⟨le_refl 0, fun _ hne => absurd rfl hne⟩
    · exact ⟨(max_compliance_ok _ _ _).1, fun h _ => (max_compliance_ok _ _ _).2 h⟩
  · intro svdFit gdt pts n o
    exact ⟨(guarded_compliance_ok _ _ _).1, fun h _ => (guarded_compliance_ok _ _ _).2 h⟩
  · intro ds v o
    exact ⟨(max_compliance_ok _ _ _).1, fun h _ => (max_compliance_ok _ _ _).2 h⟩
  · intro ds gdt v o r hr
    simp only [validate_groove_position] at hr
    split_ifs at hr
    all_goals first
      | exact Option.noConfusion hr
      | (rw [Option.some_inj] at hr
         subst hr
         exact ⟨(max_compliance_ok _ _ _).1, fun h _ => (max_compliance_ok _ _ _).2 h⟩)
  · intro ds w d o r hr
    unfold validate_groove_dimensions at hr
    rcases List.mem_cons.mp hr with h | h
    · subst h
      exact ⟨(max_compliance_ok _ _ _).1, fun h _ => (max_compliance_ok _ _ _).2 h⟩
    · rcases List.mem_singleton.mp h with rfl
      exact ⟨(max_compliance_ok _ _ _).1, fun h _ => (max_compliance_ok _ _ _).2 h⟩

/-- Witness for C3: the depth check at exact nominal has compliance 100. -/
theorem c3_compliance_witness :
    0 ≤ (validate_depth specC8 measAt8).compliance_percentage ∧
    (validate_depth specC8 measAt8).compliance_percentage = 100 := by
  have h := (c3_compliance specC8).1 measAt8
  refine ⟨h.1, h.2 ?_ ?_⟩
  · show |measAt8.depth_mm - specC8.depth_mm| = 0
    norm_num [measAt8, specC8, ChamferSpecification.make]
  · show (if |measAt8.depth_mm - specC8.depth_mm| > specC8.tolerance_mm * 2 then
        ValidationStatus.FAIL
      else if |measAt8.depth_mm - specC8.depth_mm| > specC8.tolerance_mm then
        ValidationStatus.WARN
      else ValidationStatus.PASS) ≠ .NOT_CHECKED
    norm_num [measAt8, specC8, ChamferSpecification.make]
    decide

/-- Claim C4: `validate_profile_consistency` returns NOT_CHECKED for fewer
than two measurements (in particular for exactly one); with at least two it
reports `max(std(depths), std(angles)/10)` as the deviation (population
standard deviation, which is what `npStd` computes) against the fixed
tolerance 0.1, classified with the ≤tol / ≤2·tol / >2·tol rule. -/
theorem c4_profile_consistency (measurements : List ChamferMeasurement) :
    (measurements.length < 2 →
      (validate_profile_consistency measurements).status = .NOT_CHECKED) ∧
    (2 ≤ measurements.length →
      (validate_profile_consistency measurements).deviation =
        max (npStd (measurements.map (·.depth_mm)))
          (npStd (measurements.map (·.angle_degrees)) / 10) ∧
      (validate_profile_consistency measurements).tolerance = 0.1 ∧
      (max (npStd (measurements.map (·.depth_mm)))
          (npStd (measurements.map (·.angle_degrees)) / 10) ≤ 0.1 →
        (validate_profile_consistency measurements).status = .PASS) ∧
      (0.1 < max (npStd (measurements.map (·.depth_mm)))
          (npStd (measurements.map (·.angle_degrees)) / 10) →
        max (npStd (measurements.map (·.depth_mm)))
          (npStd (measurements.map (·.angle_degrees)) / 10) ≤ 2 * 0.1 →
        (validate_profile_consistency measurements).status = .WARN) ∧
      (2 * 0.1 < max (npStd (measurements.map (·.depth_mm)))
          (npStd (measurements.map (·.angle_degrees)) / 10) →
        (validate_profile_consistency measurements).status = .FAIL)) := by
  constructor
  · intro h
    unfold validate_profile_consistency
    rw [if_pos h]
  · intro h
    have hlen : ¬ measurements.length < 2 := not_lt.mpr h
    have hstat : (validate_profile_consistency measurements).status =
        (if max (npStd (measurements.map (·.depth_mm)))
             (npStd (measurements.map (·.angle_degrees)) / 10) > 0.1 * 2 then .FAIL
         else if max (npStd (measurements.map (·.depth_mm)))
             (npStd (measurements.map (·.angle_degrees)) / 10) > 0.1 then .WARN
         else .PASS) := by
      unfold validate_profile_consistency
      rw [if_neg hlen]
    have hdev : (validate_profile_consistency measurements).deviation =
        max (npStd (measurements.map (·.depth_mm)))
          (npStd (measurements.map (·.angle_degrees)) / 10) := by
      unfold validate_profile_consistency
      rw [if_neg hlen]
    have htol : (validate_profile_consistency measurements).tolerance = 0.1 := by
      unfold validate_profile_consistency
      rw [if_neg hlen]
    refine ⟨hdev, htol, ?_, ?_, ?_⟩
    · intro hle
      rw [hstat]
      split_ifs <;> first | rfl | (exfalso; linarith)
    · intro h1 h2
      rw [hstat]
      split_ifs <;> first | rfl | (exfalso; linarith)
    · intro h1
      rw [hstat]
      split_ifs <;> first | rfl | (exfalso; linarith)

/-- Witness for C4: a single measurement is NOT_CHECKED; two identical
measurements have zero spread and pass. -/
theorem c4_profile_consistency_witness :
    (validate_profile_consistency [measAt8]).status = .NOT_CHECKED ∧
    (validate_profile_consistency [measAt8, measAt8post]).status = .PASS := by
  constructor
  · exact (c4_profile_consistency [measAt8]).1 (by norm_num)
  · have hd : npStd ([measAt8, measAt8post].map (·.depth_mm)) = 0 := by
      norm_num [measAt8, measAt8post, npStd, npMean]
    have ha : npStd ([measAt8, measAt8post].map (·.angle_degrees)) = 0 := by
      norm_num [measAt8, measAt8post, npStd, npMean]
    refine ((c4_profile_consistency [measAt8, measAt8post]).2 (by norm_num)).2.2.1 ?_
    rw [hd, ha]
    norm_num

/-- Claim C5, counterexample: the claim's "width ≥ 0 for angles in (0°, 180°)"
is quantified over every depth, but a negative depth yields a negative width:
constructing with depth −1 and angle 90 gives width −2. -/
theorem c5_counterexample :
    (0:ℝ) < 90 ∧ (90:ℝ) < 180 ∧
    (ChamferSpecification.make (-1) 90 0.5 3.2).width_mm < 0 := by
  refine ⟨by norm_num, by norm_num, ?_⟩
  show (-1 : ℝ) * Real.tan (radians (90 / 2)) * 2 < 0
  have h : radians (90 / 2) = Real.pi / 4 := by
    unfold radians
    ring
  rw [h, Real.tan_pi_div_four]
  norm_num

/-- Claim C5 (amended): a freshly constructed `ChamferSpecification` satisfies
`width = 2·depth·tan(radians(angle)/2)`, and this width is non-negative for a
non-negative depth and an angle in (0°, 180°). -/
theorem c5_chamfer_width (depth angle tol rough : ℝ) :
    (ChamferSpecification.make depth angle tol rough).width_mm =
      2 * depth * Real.tan (radians angle / 2) ∧
    (0 ≤ depth → 0 < angle → angle < 180 →
      0 ≤ (ChamferSpecification.make depth angle tol rough).width_mm) := by
  have hpi : 0 < Real.pi := Real.pi_pos
  have hr : radians (angle / 2) = radians angle / 2 := by
    unfold radians
    ring
  have hw : (ChamferSpecification.make depth angle tol rough).width_mm =
      depth * Real.tan (radians (angle / 2)) * 2 := rfl
  constructor
  · rw [hw, hr]
    ring
  · intro hd h0 h180
    rw [hw]
    have htan : 0 ≤ Real.tan (radians (angle / 2)) := by
      apply Real.tan_nonneg_of_nonneg_of_le_pi_div_two
      · unfold radians
        nlinarith
      · unfold radians
        nlinarith
    nlinarith

/-- Witness for C5: the C8 construction (depth 8, angle 45) satisfies the
width formula and has non-negative width. -/
theorem c5_chamfer_width_witness :
    (ChamferSpecification.make 8 45 0.5 3.2).width_mm =
      2 * 8 * Real.tan (radians 45 / 2) ∧
    0 ≤ (ChamferSpecification.make 8 45 0.5 3.2).width_mm :=
  ⟨(c5_chamfer_width 8 45 0.5 3.2).1,
   (c5_chamfer_width 8 45 0.5 3.2).2 (by norm_num) (by norm_num) (by norm_num)⟩

/-- Dot product with a scaled left argument. -/
theorem Vec3.dot_smul_left (c : ℝ) (a b : Vec3) :
    (Vec3.smul c a).dot b = c * a.dot b := by
  simp only [Vec3.smul, Vec3.dot]
  ring

/-- Dot product with a scaled right argument. -/
theorem Vec3.dot_smul_right (c : ℝ) (a b : Vec3) :
    a.dot (Vec3.smul c b) = c * a.dot b := by
  simp only [Vec3.smul, Vec3.dot]
  ring

/-- Norm of a scaled vector. -/
theorem Vec3.norm_smul (c : ℝ) (a : Vec3) :
    (Vec3.smul c a).norm = |c| * a.norm := by
  unfold Vec3.norm
  rw [Vec3.dot_smul_left, Vec3.dot_smul_right, ← mul_assoc,
    Real.sqrt_mul (mul_self_nonneg c), Real.sqrt_mul_self_eq_abs]

/-- An edge vector parallel (or anti-parallel) to the reference normal has
perpendicularity deviation 0: the normalised dot product has absolute value 1,
`arccos 1 = 0` and `tan 0 = 0`. -/
theorem perp_parallel (n : Vec3) (c : ℝ) (hc : c ≠ 0) (hn : 0 < n.dot n) :
    calculate_perpendicularity (Vec3.smul c n) n = 0 := by
  have hN : 0 < n.norm := Real.sqrt_pos.mpr hn
  have hNsq : n.norm * n.norm = n.dot n := Real.mul_self_sqrt hn.le
  have habs : |c| ≠ 0 := abs_ne_zero.mpr hc
  have hdot : (Vec3.normalize (Vec3.smul c n)).dot (Vec3.normalize n) = c / |c| := by
    unfold Vec3.normalize
    rw [Vec3.norm_smul, Vec3.dot_smul_left, Vec3.dot_smul_left, Vec3.dot_smul_right]
    have hexp : 1 / (|c| * n.norm) * (c * (1 / n.norm * n.dot n)) =
        c * n.dot n / (|c| * (n.norm * n.norm)) := by
      ring
    rw [hexp, hNsq, mul_comm |c| (n.dot n), ← div_div, mul_div_assoc, div_self hn.ne',
      mul_one]
  have habs1 : |(Vec3.normalize (Vec3.smul c n)).dot (Vec3.normalize n)| = 1 := by
    rw [hdot, abs_div, abs_abs, div_self habs]
  simp only [calculate_perpendicularity]
  rw [habs1, min_self, Real.arccos_one, Real.tan_zero, zero_mul]

/-- The perpendicularity computation agrees with the spec's
`tan(arccos(clamp(|dot|, −1, 1))) · 100` formula: clamping from below at −1
is a no-op on an absolute value. -/
theorem perp_formula (e n : Vec3) :
    calculate_perpendicularity e n =
      Real.tan (Real.arccos
        (max (-1) (min 1 |(Vec3.normalize e).dot (Vec3.normalize n)|))) * 100 := by
  have h : max (-1 : ℝ) (min 1 |(Vec3.normalize e).dot (Vec3.normalize n)|) =
      min 1 |(Vec3.normalize e).dot (Vec3.normalize n)| :=
    max_eq_right (le_min (by norm_num)
      (le_trans (by norm_num) (abs_nonneg ((Vec3.normalize e).dot (Vec3.normalize n)))))
  rw [h]
  rfl

/-- Claim C6: `calculate_perpendicularity` implements the clamped
`tan(arccos(|dot|))·100` formula on the normalised vectors; for an edge vector
parallel or anti-parallel to the reference normal the deviation is 0, and
`validate_edge_squareness` then classifies PASS for any non-negative
perpendicularity tolerance. -/
theorem c6_perpendicularity :
    (∀ e n : Vec3, calculate_perpendicularity e n =
      Real.tan (Real.arccos
        (max (-1) (min 1 |(Vec3.normalize e).dot (Vec3.normalize n)|))) * 100) ∧
    (∀ (n : Vec3) (c : ℝ), c ≠ 0 → 0 < n.dot n →
      calculate_perpendicularity (Vec3.smul c n) n = 0) ∧
    (∀ (svdFit : List MeasurementPoint → Vec3) (gdt : GDnTSpecification)
        (pts : List MeasurementPoint) (n : Vec3) (o : EdgeOrientation) (c : ℝ),
      c ≠ 0 → 0 < n.dot n → 0 ≤ gdt.perpendicularity_tolerance_mm →
      calculate_edge_vector svdFit pts = Vec3.smul c n →
      (validate_edge_squareness svdFit gdt pts n o).status = .PASS) := by
  refine ⟨perp_formula, fun n c hc hn => perp_parallel n c hc hn, ?_⟩
  intro svdFit gdt pts n o c hc hn ht heq
  have hstat : (validate_edge_squareness svdFit gdt pts n o).status =
      (if calculate_perpendicularity (calculate_edge_vector svdFit pts) n >
          gdt.perpendicularity_tolerance_mm * 2 then .FAIL
       else if calculate_perpendicularity (calculate_edge_vector svdFit pts) n >
          gdt.perpendicularity_tolerance_mm then .WARN
       else .PASS) := rfl
  rw [hstat, heq, perp_parallel n c hc hn]
  rw [if_neg (by push_neg; linarith), if_neg (by push_neg; linarith)]

/-- The reference normal `[0, 1, 0]` used by `validate_all`. -/
noncomputable def nUp : Vec3 := ⟨0, 1, 0⟩

/-- A line fit returning a vector parallel to `nUp`. -/
noncomputable def svdFitUp : List MeasurementPoint → Vec3 := fun _ => Vec3.smul 2 nUp

/-- Two measurement points on a vertical line. -/
noncomputable def ptsVertical : List MeasurementPoint :=
  [⟨0, 0, 0, 0.01⟩, ⟨0, 1, 0, 0.01⟩]

/-- The default GD&T tolerance bundle (`GDnTSpecification()` defaults). -/
noncomputable def gdtDefault : GDnTSpecification :=
  { profile_tolerance_mm := 0.1
    angular_tolerance_deg := 0.5
    parallelism_tolerance_mm := 0.05
    perpendicularity_tolerance_mm := 0.1
    symmetry_tolerance_mm := 0.15
    position_tolerance_mm := 1.0
    flatness_tolerance_mm := 0.05
    cylindricity_tolerance_mm := 0.1 }

/-- Witness for C6: a concrete edge parallel to the vertical reference normal
has deviation 0 and passes the squareness check. -/
theorem c6_perpendicularity_witness :
    calculate_perpendicularity (Vec3.smul 2 nUp) nUp = 0 ∧
    (validate_edge_squareness svdFitUp gdtDefault ptsVertical nUp .ANTERIOR).status = .PASS := by
  have hdot : (0:ℝ) < nUp.dot nUp := by norm_num [nUp, Vec3.dot]
  constructor
  · exact c6_perpendicularity.2.1 nUp 2 (by norm_num) hdot
  · refine c6_perpendicularity.2.2 svdFitUp gdtDefault ptsVertical nUp .ANTERIOR 2
      (by norm_num) hdot ?_ ?_
    · norm_num [gdtDefault]
    · simp [calculate_edge_vector, ptsVertical, svdFitUp]

/-- Claim C7: `validate_surface_roughness`, `validate_groove_position` and
`validate_groove_dimensions` never produce a FAIL result: roughness is
NOT_CHECKED (with a remediation asking for a measurement) when unmeasured and
otherwise PASS iff the deviation is within 0.5, WARN otherwise; the groove
checks are PASS iff within their tolerance, WARN otherwise. -/
theorem c7_no_fail_tier :
    (∀ (spec : ChamferSpecification) (m : ChamferMeasurement),
      (m.roughness_ra = none →
        (validate_surface_roughness spec m).status = .NOT_CHECKED ∧
        (validate_surface_roughness spec m).recommendations =
          ["Perform surface roughness measurement"]) ∧
      (∀ ra, m.roughness_ra = some ra →
        (validate_surface_roughness spec m).status =
          (if |ra - spec.surface_roughness_ra| ≤ 0.5 then .PASS else .WARN)) ∧
      (validate_surface_roughness spec m).status ≠ .FAIL) ∧
    (∀ ds gdt v o r, validate_groove_position ds gdt v o = some r →
      r.status = (if |v - ds.distance_from_edge_mm| ≤ gdt.position_tolerance_mm
        then .PASS else .WARN) ∧
      r.status ≠ .FAIL) ∧
    (∀ ds w d o,
      (validate_groove_dimensions ds w d o).map (·.status) =
        [if |w - ds.groove_width_mm| ≤ 0.5 then .PASS else .WARN,
         if |d - ds.groove_depth_mm| ≤ 0.5 then .PASS else .WARN] ∧
      ∀ r ∈ validate_groove_dimensions ds w d o, r.status ≠ .FAIL) := by
  refine ⟨?_, ?_, ?_⟩
  · intro spec m
    refine ⟨?_, ?_, ?_⟩
    · intro hnone
      simp [validate_surface_roughness, hnone]
    · intro ra hra
      simp only [validate_surface_roughness, hra]
    · cases hm : m.roughness_ra with
      | none =>
        simp [validate_surface_roughness, hm]
      | some ra =>
        simp only [validate_surface_roughness, hm]
        split_ifs <;> simp
  · intro ds gdt v o r hr
    simp only [validate_groove_position] at hr
    by_cases h1 : gdt.position_tolerance_mm = 0
    · rw [if_pos h1] at hr
      exact Option.noConfusion hr
    · rw [if_neg h1, Option.some_inj] at hr
      subst hr
      refine ⟨rfl, ?_⟩
      show (if |v - ds.distance_from_edge_mm| ≤ gdt.position_tolerance_mm then
          ValidationStatus.PASS else .WARN) ≠ .FAIL
      split_ifs <;> simp
  · intro ds w d o
    constructor
    · rfl
    · intro r hr
      rcases List.mem_cons.mp hr with h | h
      · subst h
        show (if |w - ds.groove_width_mm| ≤ 0.5 then
            ValidationStatus.PASS else .WARN) ≠ .FAIL
        split_ifs <;> simp
      · rcases List.mem_singleton.mp h with rfl
        show (if |d - ds.groove_depth_mm| ≤ 0.5 then
            ValidationStatus.PASS else .WARN) ≠ .FAIL
        split_ifs <;> simp

/-- A default drip-edge specification (`DripEdgeSpecification()` defaults). -/
noncomputable def dripDefault : DripEdgeSpecification :=
  { overhang_mm := 30
    flashing_height_mm := 15
    groove_depth_mm := 5
    groove_width_mm := 8
    distance_from_edge_mm := 20
    thickness_mm := 0.8 }

/-- Witness for C7: an unmeasured roughness is NOT_CHECKED, a roughness at
nominal passes, and exact groove dimensions pass. -/
theorem c7_no_fail_tier_witness :
    (validate_surface_roughness specC8 measAt8).status = .NOT_CHECKED ∧
    (validate_surface_roughness specC8 measDepth84).status = .PASS ∧
    (validate_groove_dimensions dripDefault 8 5 .ANTERIOR).map (·.status) =
      [.PASS, .PASS] := by
  refine ⟨((c7_no_fail_tier.1 specC8 measAt8).1 rfl).1, ?_, ?_⟩
  · have h := (c7_no_fail_tier.1 specC8 measDepth84).2.1 3.2 rfl
    rw [h]
    norm_num [specC8, ChamferSpecification.make]
  · have h := (c7_no_fail_tier.2.2 dripDefault 8 5 .ANTERIOR).1
    rw [h]
    norm_num [dripDefault]

/-- Claim C8: the summary percentages divide by `total_checks` with no zero
guard, so the formatter raises exactly on reports with zero checks (and only
on those). -/
theorem c8_summary_division (report : EdgeValidationReport) :
    (report.total_checks = 0 → generate_report_summary report = none) ∧
    (report.total_checks ≠ 0 → (generate_report_summary report).isSome = true) := by
  constructor
  · intro h
    simp [generate_report_summary, pyDiv, h]
  · intro h
    simp [generate_report_summary, pyDiv, h]

/-- Witness for C8: a freshly created report with zero checks crashes the
formatter. -/
theorem c8_summary_division_witness :
    generate_report_summary { specification_id := "EMPTY" } = none :=
  (c8_summary_division { specification_id := "EMPTY" }).1 rfl

/-- Number of results in a list carrying the given status. -/
def countStatus (s : ValidationStatus) : List ValidationResult → ℕ
  | [] => 0
  | r :: rest => (if r.status = s then 1 else 0) + countStatus s rest

/-- Total number of chamfer results stored in the report. -/
def chamferLen (r : EdgeValidationReport) : ℕ :=
  (r.chamfer_results.map (fun p => p.2.length)).sum

/-- Number of squareness results stored in the report. -/
def squareLen (r : EdgeValidationReport) : ℕ :=
  r.squareness_results.length

/-- Total number of drip-edge results stored in the report. -/
def dripLen (r : EdgeValidationReport) : ℕ :=
  (r.drip_edge_results.map (fun p => p.2.length)).sum

theorem countStatus_append (s : ValidationStatus) (l1 l2 : List ValidationResult) :
    countStatus s (l1 ++ l2) = countStatus s l1 + countStatus s l2 := by
  induction l1 with
  | nil => simp [countStatus]
  | cons a t ih =>
    simp only [List.cons_append, countStatus, List.append_eq, ih]
    omega

theorem tally_total (r : EdgeValidationReport) (res : ValidationResult) :
    (tally r res).total_checks = r.total_checks := by
  unfold tally
  split_ifs <;> rfl

theorem tally_chamfer (r : EdgeValidationReport) (res : ValidationResult) :
    (tally r res).chamfer_results = r.chamfer_results := by
  unfold tally
  split_ifs <;> rfl

theorem tally_square (r : EdgeValidationReport) (res : ValidationResult) :
    (tally r res).squareness_results = r.squareness_results := by
  unfold tally
  split_ifs <;> rfl

theorem tally_drip (r : EdgeValidationReport) (res : ValidationResult) :
    (tally r res).drip_edge_results = r.drip_edge_results := by
  unfold tally
  split_ifs <;> rfl

theorem tally_failed (r : EdgeValidationReport) (res : ValidationResult) :
    (tally r res).failed_checks =
      r.failed_checks + (if res.status = .FAIL then 1 else 0) := by
  unfold tally
  split_ifs <;> simp_all

theorem tallyPassWarn_total (r : EdgeValidationReport) (res : ValidationResult) :
    (tallyPassWarn r res).total_checks = r.total_checks := by
  unfold tallyPassWarn
  split_ifs <;> rfl

theorem tallyPassWarn_failed (r : EdgeValidationReport) (res : ValidationResult) :
    (tallyPassWarn r res).failed_checks = r.failed_checks := by
  unfold tallyPassWarn
  split_ifs <;> rfl

theorem tallyPassWarn_chamfer (r : EdgeValidationReport) (res : ValidationResult) :
    (tallyPassWarn r res).chamfer_results = r.chamfer_results := by
  unfold tallyPassWarn
  split_ifs <;> rfl

theorem tallyPassWarn_square (r : EdgeValidationReport) (res : ValidationResult) :
    (tallyPassWarn r res).squareness_results = r.squareness_results := by
  unfold tallyPassWarn
  split_ifs <;> rfl

theorem tallyPassWarn_drip (r : EdgeValidationReport) (res : ValidationResult) :
    (tallyPassWarn r res).drip_edge_results = r.drip_edge_results := by
  unfold tallyPassWarn
  split_ifs <;> rfl

theorem tallyPassWarn_passed (r : EdgeValidationReport) (res : ValidationResult) :
    (tallyPassWarn r res).passed_checks =
      r.passed_checks + (if res.status = .PASS then 1 else 0) := by
  unfold tallyPassWarn
  split_ifs <;> simp_all

theorem tallyPassWarn_warning (r : EdgeValidationReport) (res : ValidationResult) :
    (tallyPassWarn r res).warning_checks =
      r.warning_checks + (if res.status = .WARN then 1 else 0) := by
  unfold tallyPassWarn
  split_ifs <;> simp_all

theorem foldl_tally_total (l : List ValidationResult) :
    ∀ r, (l.foldl tally r).total_checks = r.total_checks := by
  induction l with
  | nil => intro r; rfl
  | cons a t ih => intro r; rw [List.foldl_cons, ih, tally_total]

theorem foldl_tally_chamfer (l : List ValidationResult) :
    ∀ r, (l.foldl tally r).chamfer_results = r.chamfer_results := by
  induction l with
  | nil => intro r; rfl
  | cons a t ih => intro r; rw [List.foldl_cons, ih, tally_chamfer]

theorem foldl_tally_square (l : List ValidationResult) :
    ∀ r, (l.foldl tally r).squareness_results = r.squareness_results := by
  induction l with
  | nil => intro r; rfl
  | cons a t ih => intro r; rw [List.foldl_cons, ih, tally_square]

theorem foldl_tally_drip (l : List ValidationResult) :
    ∀ r, (l.foldl tally r).drip_edge_results = r.drip_edge_results := by
  induction l with
  | nil => intro r; rfl
  | cons a t ih => intro r; rw [List.foldl_cons, ih, tally_drip]

theorem foldl_tallyPassWarn_total (l : List ValidationResult) :
    ∀ r, (l.foldl tallyPassWarn r).total_checks = r.total_checks := by
  induction l with
  | nil => intro r; rfl
  | cons a t ih => intro r; rw [List.foldl_cons, ih, tallyPassWarn_total]

theorem foldl_tallyPassWarn_failed (l : List ValidationResult) :
    ∀ r, (l.foldl tallyPassWarn r).failed_checks = r.failed_checks := by
  induction l with
  | nil => intro r; rfl
  | cons a t ih => intro r; rw [List.foldl_cons, ih, tallyPassWarn_failed]

theorem foldl_tallyPassWarn_chamfer (l : List ValidationResult) :
    ∀ r, (l.foldl tallyPassWarn r).chamfer_results = r.chamfer_results := by
  induction l with
  | nil => intro r; rfl
  | cons a t ih => intro r; rw [List.foldl_cons, ih, tallyPassWarn_chamfer]

theorem foldl_tallyPassWarn_square (l : List ValidationResult) :
    ∀ r, (l.foldl tallyPassWarn r).squareness_results = r.squareness_results := by
  induction l with
  | nil => intro r; rfl
  | cons a t ih => intro r; rw [List.foldl_cons, ih, tallyPassWarn_square]

theorem foldl_tallyPassWarn_drip (l : List ValidationResult) :
    ∀ r, (l.foldl tallyPassWarn r).drip_edge_results = r.drip_edge_results := by
  induction l with
  | nil => intro r; rfl
  | cons a t ih => intro r; rw [List.foldl_cons, ih, tallyPassWarn_drip]

theorem foldl_tallyPassWarn_passed (l : List ValidationResult) :
    ∀ r, (l.foldl tallyPassWarn r).passed_checks =
      r.passed_checks + countStatus .PASS l := by
  induction l with
  | nil => intro r; simp [countStatus]
  | cons a t ih =>
    intro r
    rw [List.foldl_cons, ih, tallyPassWarn_passed]
    simp only [countStatus]
    omega

theorem foldl_tallyPassWarn_warning (l : List ValidationResult) :
    ∀ r, (l.foldl tallyPassWarn r).warning_checks =
      r.warning_checks + countStatus .WARN l := by
  induction l with
  | nil => intro r; simp [countStatus]
  | cons a t ih =>
    intro r
    rw [List.foldl_cons, ih, tallyPassWarn_warning]
    simp only [countStatus]
    omega

theorem chamferPhase_total (spec : ChamferSpecification)
    (l : List (EdgeOrientation × ChamferMeasurement)) :
    ∀ r, (chamferPhase spec l r).total_checks = r.total_checks + 3 * l.length := by
  induction l with
  | nil => intro r; simp [chamferPhase]
  | cons a t ih =>
    intro r
    obtain ⟨o, m⟩ := a
    simp only [chamferPhase]
    rw [ih, foldl_tally_total]
    simp only [List.length_cons]
    omega

theorem chamferPhase_chamferLen (spec : ChamferSpecification)
    (l : List (EdgeOrientation × ChamferMeasurement)) :
    ∀ r, chamferLen (chamferPhase spec l r) = chamferLen r + 3 * l.length := by
  induction l with
  | nil => intro r; simp [chamferPhase]
  | cons a t ih =>
    intro r
    obtain ⟨o, m⟩ := a
    simp only [chamferPhase]
    rw [ih]
    unfold chamferLen
    rw [foldl_tally_chamfer]
    simp only [List.map_append, List.sum_append, List.map_cons, List.map_nil,
      List.sum_cons, List.sum_nil, List.length_cons, List.length_nil]
    omega

theorem chamferPhase_square (spec : ChamferSpecification)
    (l : List (EdgeOrientation × ChamferMeasurement)) :
    ∀ r, (chamferPhase spec l r).squareness_results = r.squareness_results := by
  induction l with
  | nil => intro r; rfl
  | cons a t ih =>
    intro r
    obtain ⟨o, m⟩ := a
    simp only [chamferPhase]
    rw [ih, foldl_tally_square]

theorem chamferPhase_drip (spec : ChamferSpecification)
    (l : List (EdgeOrientation × ChamferMeasurement)) :
    ∀ r, (chamferPhase spec l r).drip_edge_results = r.drip_edge_results := by
  induction l with
  | nil => intro r; rfl
  | cons a t ih =>
    intro r
    obtain ⟨o, m⟩ := a
    simp only [chamferPhase]
    rw [ih, foldl_tally_drip]

theorem squarenessPhase_total (svdFit : List MeasurementPoint → Vec3)
    (gdt : GDnTSpecification) (n : Vec3)
    (l : List (EdgeOrientation × List MeasurementPoint)) :
    ∀ r, (squarenessPhase svdFit gdt n l r).total_checks = r.total_checks + l.length := by
  induction l with
  | nil => intro r; simp [squarenessPhase]
  | cons a t ih =>
    intro r
    obtain ⟨o, pts⟩ := a
    simp only [squarenessPhase]
    rw [ih, tally_total]
    simp only [List.length_cons]
    omega

theorem squarenessPhase_squareLen (svdFit : List MeasurementPoint → Vec3)
    (gdt : GDnTSpecification) (n : Vec3)
    (l : List (EdgeOrientation × List MeasurementPoint)) :
    ∀ r, squareLen (squarenessPhase svdFit gdt n l r) = squareLen r + l.length := by
  induction l with
  | nil => intro r; simp [squarenessPhase, squareLen]
  | cons a t ih =>
    intro r
    obtain ⟨o, pts⟩ := a
    simp only [squarenessPhase]
    rw [ih]
    unfold squareLen
    rw [tally_square]
    simp only [List.length_append, List.length_cons, List.length_nil]
    omega

theorem squarenessPhase_chamfer (svdFit : List MeasurementPoint → Vec3)
    (gdt : GDnTSpecification) (n : Vec3)
    (l : List (EdgeOrientation × List MeasurementPoint)) :
    ∀ r, (squarenessPhase svdFit gdt n l r).chamfer_results = r.chamfer_results := by
  induction l with
  | nil => intro r; rfl
  | cons a t ih =>
    intro r
    obtain ⟨o, pts⟩ := a
    simp only [squarenessPhase]
    rw [ih, tally_chamfer]

theorem squarenessPhase_drip (svdFit : List MeasurementPoint → Vec3)
    (gdt : GDnTSpecification) (n : Vec3)
    (l : List (EdgeOrientation × List MeasurementPoint)) :
    ∀ r, (squarenessPhase svdFit gdt n l r).drip_edge_results = r.drip_edge_results := by
  induction l with
  | nil => intro r; rfl
  | cons a t ih =>
    intro r
    obtain ⟨o, pts⟩ := a
    simp only [squarenessPhase]
    rw [ih, tally_drip]

theorem dripOverhangStep_spec (ds : DripEdgeSpecification) (o : EdgeOrientation)
    (ov : Option ℝ) (r : EdgeValidationReport) :
    (dripOverhangStep ds o ov r).2.failed_checks = r.failed_checks ∧
    (dripOverhangStep ds o ov r).2.total_checks =
      r.total_checks + (dripOverhangStep ds o ov r).1.length ∧
    (dripOverhangStep ds o ov r).2.passed_checks =
      r.passed_checks + countStatus .PASS (dripOverhangStep ds o ov r).1 ∧
    (dripOverhangStep ds o ov r).2.warning_checks =
      r.warning_checks + countStatus .WARN (dripOverhangStep ds o ov r).1 ∧
    (dripOverhangStep ds o ov r).2.chamfer_results = r.chamfer_results ∧
    (dripOverhangStep ds o ov r).2.squareness_results = r.squareness_results ∧
    (dripOverhangStep ds o ov r).2.drip_edge_results = r.drip_edge_results := by
  cases ov with
  | none => simp [dripOverhangStep, countStatus]
  | some v =>
    refine ⟨?_, ?_, ?_, ?_, ?_, ?_, ?_⟩ <;>
      simp [dripOverhangStep, tallyPassWarn_total, tallyPassWarn_failed,
        tallyPassWarn_passed, tallyPassWarn_warning, tallyPassWarn_chamfer,
        tallyPassWarn_square, tallyPassWarn_drip, countStatus]

theorem dripGroovePosStep_spec (ds : DripEdgeSpecification) (gdt : GDnTSpecification)
    (o : EdgeOrientation) (gp : Option ℝ)
    (acc out : List ValidationResult × EdgeValidationReport)
    (h : dripGroovePosStep ds gdt o gp acc = some out) :
    out.2.failed_checks = acc.2.failed_checks ∧
    out.2.total_checks + acc.1.length = acc.2.total_checks + out.1.length ∧
    out.2.passed_checks + countStatus .PASS acc.1 =
      acc.2.passed_checks + countStatus .PASS out.1 ∧
    out.2.warning_checks + countStatus .WARN acc.1 =
      acc.2.warning_checks + countStatus .WARN out.1 ∧
    out.2.chamfer_results = acc.2.chamfer_results ∧
    out.2.squareness_results = acc.2.squareness_results ∧
    out.2.drip_edge_results = acc.2.drip_edge_results := by
  cases gp with
  | none =>
    simp only [dripGroovePosStep, Option.some_inj] at h
    subst h
    exact ⟨rfl, by omega, by omega, by omega, rfl, rfl, rfl⟩
  | some v =>
    simp only [dripGroovePosStep] at h
    cases hvp : validate_groove_position ds gdt v o with
    | none => simp [hvp] at h
    | some result =>
      simp only [hvp, Option.some_inj] at h
      subst h
      refine ⟨?_, ?_, ?_, ?_, ?_, ?_, ?_⟩ <;>
        simp [tallyPassWarn_total, tallyPassWarn_failed, tallyPassWarn_passed,
          tallyPassWarn_warning, tallyPassWarn_chamfer, tallyPassWarn_square,
          tallyPassWarn_drip, countStatus_append, countStatus, List.length_append] <;>
        omega

theorem dripDimsStep_spec (ds : DripEdgeSpecification) (o : EdgeOrientation)
    (gw gd : Option ℝ) (acc : List ValidationResult × EdgeValidationReport) :
    (dripDimsStep ds o gw gd acc).2.failed_checks = acc.2.failed_checks ∧
    (dripDimsStep ds o gw gd acc).2.total_checks + acc.1.length =
      acc.2.total_checks + (dripDimsStep ds o gw gd acc).1.length ∧
    (dripDimsStep ds o gw gd acc).2.passed_checks + countStatus .PASS acc.1 =
      acc.2.passed_checks + countStatus .PASS (dripDimsStep ds o gw gd acc).1 ∧
    (dripDimsStep ds o gw gd acc).2.warning_checks + countStatus .WARN acc.1 =
      acc.2.warning_checks + countStatus .WARN (dripDimsStep ds o gw gd acc).1 ∧
    (dripDimsStep ds o gw gd acc).2.chamfer_results = acc.2.chamfer_results ∧
    (dripDimsStep ds o gw gd acc).2.squareness_results = acc.2.squareness_results ∧
    (dripDimsStep ds o gw gd acc).2.drip_edge_results = acc.2.drip_edge_results := by
  cases gw with
  | none => cases gd <;> simp [dripDimsStep]
  | some w =>
    cases gd with
    | none => simp [dripDimsStep]
    | some d =>
      refine ⟨?_, ?_, ?_, ?_, ?_, ?_, ?_⟩ <;>
        simp [dripDimsStep, foldl_tallyPassWarn_total, foldl_tallyPassWarn_failed,
          foldl_tallyPassWarn_passed, foldl_tallyPassWarn_warning,
          foldl_tallyPassWarn_chamfer, foldl_tallyPassWarn_square,
          foldl_tallyPassWarn_drip, countStatus_append, List.length_append] <;>
        omega

theorem dripStep_spec (ds : DripEdgeSpecification) (gdt : GDnTSpecification)
    (o : EdgeOrientation) (m : DripMeasurements) (r : EdgeValidationReport)
    (results : List ValidationResult) (r2 : EdgeValidationReport)
    (h : dripStep ds gdt o m r = some (results, r2)) :
    r2.failed_checks = r.failed_checks ∧
    r2.total_checks = r.total_checks + results.length ∧
    r2.passed_checks = r.passed_checks + countStatus .PASS results ∧
    r2.warning_checks = r.warning_checks + countStatus .WARN results ∧
    r2.chamfer_results = r.chamfer_results ∧
    r2.squareness_results = r.squareness_results ∧
    r2.drip_edge_results = r.drip_edge_results := by
  unfold dripStep at h
  cases hgp : dripGroovePosStep ds gdt o m.groove_distance_from_edge_mm
      (dripOverhangStep ds o m.overhang_mm r) with
  | none => rw [hgp] at h; exact Option.noConfusion h
  | some out1 =>
    rw [hgp] at h
    rw [Option.map_some'] at h
    rw [Option.some_inj] at h
    obtain ⟨f1, t1, p1, w1, c1, s1, d1⟩ := dripOverhangStep_spec ds o m.overhang_mm r
    obtain ⟨f2, t2, p2, w2, c2, s2, d2⟩ :=
      dripGroovePosStep_spec ds gdt o m.groove_distance_from_edge_mm _ out1 hgp
    obtain ⟨f3, t3, p3, w3, c3, s3, d3⟩ :=
      dripDimsStep_spec ds o m.groove_width_mm m.groove_depth_mm out1
    rw [h] at f3 t3 p3 w3 c3 s3 d3
    dsimp only at f3 t3 p3 w3 c3 s3 d3
    refine ⟨?_, ?_, ?_, ?_, ?_, ?_, ?_⟩
    · exact f3.trans (f2.trans f1)
    · omega
    · omega
    · omega
    · exact c3.trans (c2.trans c1)
    · exact s3.trans (s2.trans s1)
    · exact d3.trans (d2.trans d1)

theorem dripPhase_spec (gdt : GDnTSpecification)
    (specs : List (EdgeOrientation × DripEdgeSpecification))
    (l : List (EdgeOrientation × DripMeasurements)) :
    ∀ r r', dripPhase gdt specs l r = some r' →
      r'.failed_checks = r.failed_checks ∧
      r'.total_checks + dripLen r = r.total_checks + dripLen r' ∧
      r'.chamfer_results = r.chamfer_results ∧
      r'.squareness_results = r.squareness_results := by
  induction l with
  | nil =>
    intro r r' h
    simp only [dripPhase, Option.some_inj] at h
    subst h
    exact ⟨rfl, by omega, rfl, rfl⟩
  | cons a t ih =>
    intro r r' h
    obtain ⟨o, m⟩ := a
    simp only [dripPhase] at h
    cases hlk : dictLookup o specs with
    | none =>
      rw [hlk] at h
      dsimp only at h
      exact ih r r' h
    | some ds =>
      rw [hlk] at h
      dsimp only at h
      cases hstep : dripStep ds gdt o m r with
      | none =>
        rw [hstep] at h
        dsimp only at h
        exact Option.noConfusion h
      | some pair =>
        obtain ⟨results, report2⟩ := pair
        rw [hstep] at h
        dsimp only at h
        obtain ⟨f1, t1, p1, w1, c1, s1, d1⟩ :=
          dripStep_spec ds gdt o m r results report2 hstep
        obtain ⟨hf, ht, hc, hs⟩ := ih _ r' h
        have hdl : dripLen { report2 with drip_edge_results :=
            report2.drip_edge_results ++ [(o, results)] } =
            dripLen report2 + results.length := by
          simp [dripLen, List.map_append]
        have hdl2 : dripLen report2 = dripLen r := by
          unfold dripLen
          rw [d1]
        refine ⟨?_, ?_, ?_, ?_⟩
        · rw [hf]
          exact f1
        · rw [show ({ report2 with drip_edge_results :=
            report2.drip_edge_results ++ [(o, results)] } :
            EdgeValidationReport).total_checks = report2.total_checks from rfl] at ht
          omega
        · rw [hc]
          exact c1
        · rw [hs]
          exact s1

theorem preDripReport_total (svdFit : List MeasurementPoint → Vec3)
    (spec : ManufacturingProcessSpec)
    (cms : List (EdgeOrientation × ChamferMeasurement))
    (epd : List (EdgeOrientation × List MeasurementPoint)) :
    (preDripReport svdFit spec cms epd).total_checks = 3 * cms.length + 1 + epd.length := by
  unfold preDripReport
  rw [squarenessPhase_total, tally_total]
  have := chamferPhase_total spec.c8_chamfer cms { specification_id := spec.specification_id }
  simp only at this ⊢
  omega

theorem preDripReport_chamferLen (svdFit : List MeasurementPoint → Vec3)
    (spec : ManufacturingProcessSpec)
    (cms : List (EdgeOrientation × ChamferMeasurement))
    (epd : List (EdgeOrientation × List MeasurementPoint)) :
    chamferLen (preDripReport svdFit spec cms epd) = 3 * cms.length := by
  unfold preDripReport
  unfold chamferLen
  rw [squarenessPhase_chamfer, tally_chamfer]
  have := chamferPhase_chamferLen spec.c8_chamfer cms { specification_id := spec.specification_id }
  unfold chamferLen at this
  simp only at this ⊢
  rw [this]
  simp

theorem preDripReport_squareLen (svdFit : List MeasurementPoint → Vec3)
    (spec : ManufacturingProcessSpec)
    (cms : List (EdgeOrientation × ChamferMeasurement))
    (epd : List (EdgeOrientation × List MeasurementPoint)) :
    squareLen (preDripReport svdFit spec cms epd) = epd.length := by
  unfold preDripReport
  rw [squarenessPhase_squareLen]
  unfold squareLen
  rw [tally_square, chamferPhase_square]
  simp

theorem preDripReport_dripLen (svdFit : List MeasurementPoint → Vec3)
    (spec : ManufacturingProcessSpec)
    (cms : List (EdgeOrientation × ChamferMeasurement))
    (epd : List (EdgeOrientation × List MeasurementPoint)) :
    dripLen (preDripReport svdFit spec cms epd) = 0 := by
  unfold preDripReport
  unfold dripLen
  rw [squarenessPhase_drip, tally_drip, chamferPhase_drip]
  rfl

/-- A front-edge measurement at nominal with roughness measured at nominal. -/
noncomputable def measGood : ChamferMeasurement :=
  { edge_orientation := .ANTERIOR
    depth_mm := 8
    angle_degrees := 45
    width_mm := 16
    roughness_ra := some 3.2 }

/-- A rear-edge measurement at nominal with roughness measured at nominal. -/
noncomputable def measGoodPost : ChamferMeasurement :=
  { edge_orientation := .POSTERIOR
    depth_mm := 8
    angle_degrees := 45
    width_mm := 16
    roughness_ra := some 3.2 }

/-- Two perfect chamfer measurements, front and rear. -/
noncomputable def cmsGood : List (EdgeOrientation × ChamferMeasurement) :=
  [(.ANTERIOR, measGood), (.POSTERIOR, measGoodPost)]

/-- A manufacturing spec with the standard C8 chamfer, default GD&T
tolerances and a single front drip edge. -/
noncomputable def specDrip : ManufacturingProcessSpec :=
  { specification_id := "C8-STD-001"
    description := "Standard C8 Chamfer with Brushed Finish"
    c8_chamfer := specC8
    gdt_spec := gdtDefault
    drip_edges := [(.ANTERIOR, dripDefault)] }

/-- A drip-edge measurement with a grossly wrong overhang (40 mm against the
nominal 30 mm, deviation 10 mm > 2·2 mm, hence FAIL) and no other readings. -/
noncomputable def dmOverhangBad : DripMeasurements :=
  { overhang_mm := some 40 }

theorem depth_measGood_status : (validate_depth specC8 measGood).status = .PASS := by
  show (if |(8:ℝ) - 8| > 0.5 * 2 then ValidationStatus.FAIL
    else if |(8:ℝ) - 8| > 0.5 then ValidationStatus.WARN
    else ValidationStatus.PASS) = ValidationStatus.PASS
  norm_num

theorem depth_measGoodPost_status :
    (validate_depth specC8 measGoodPost).status = .PASS := by
  show (if |(8:ℝ) - 8| > 0.5 * 2 then ValidationStatus.FAIL
    else if |(8:ℝ) - 8| > 0.5 then ValidationStatus.WARN
    else ValidationStatus.PASS) = ValidationStatus.PASS
  norm_num

theorem angle_measGood_status : (validate_angle specC8 measGood).status = .PASS := by
  show (if |(45:ℝ) - 45| > 0.5 * 2 then ValidationStatus.FAIL
    else if |(45:ℝ) - 45| > 0.5 then ValidationStatus.WARN
    else ValidationStatus.PASS) = ValidationStatus.PASS
  norm_num

theorem angle_measGoodPost_status :
    (validate_angle specC8 measGoodPost).status = .PASS := by
  show (if |(45:ℝ) - 45| > 0.5 * 2 then ValidationStatus.FAIL
    else if |(45:ℝ) - 45| > 0.5 then ValidationStatus.WARN
    else ValidationStatus.PASS) = ValidationStatus.PASS
  norm_num

theorem rough_measGood_status :
    (validate_surface_roughness specC8 measGood).status = .PASS := by
  show (if |(3.2:ℝ) - 3.2| ≤ 0.5 then ValidationStatus.PASS
    else ValidationStatus.WARN) = ValidationStatus.PASS
  norm_num

theorem rough_measGoodPost_status :
    (validate_surface_roughness specC8 measGoodPost).status = .PASS := by
  show (if |(3.2:ℝ) - 3.2| ≤ 0.5 then ValidationStatus.PASS
    else ValidationStatus.WARN) = ValidationStatus.PASS
  norm_num

theorem cons_measGood_status :
    (validate_profile_consistency [measGood, measGoodPost]).status = .PASS := by
  have hd : npStd ([measGood, measGoodPost].map (·.depth_mm)) = 0 := by
    norm_num [measGood, measGoodPost, npStd, npMean]
  have ha : npStd ([measGood, measGoodPost].map (·.angle_degrees)) = 0 := by
    norm_num [measGood, measGoodPost, npStd, npMean]
  have hlen : ¬ ([measGood, measGoodPost] : List ChamferMeasurement).length < 2 := by
    norm_num
  have hstat : (validate_profile_consistency [measGood, measGoodPost]).status =
      (if max (npStd ([measGood, measGoodPost].map (·.depth_mm)))
           (npStd ([measGood, measGoodPost].map (·.angle_degrees)) / 10) > 0.1 * 2 then
         ValidationStatus.FAIL
       else if max (npStd ([measGood, measGoodPost].map (·.depth_mm)))
           (npStd ([measGood, measGoodPost].map (·.angle_degrees)) / 10) > 0.1 then
         ValidationStatus.WARN
       else ValidationStatus.PASS) := by
    unfold validate_profile_consistency
    rw [if_neg hlen]
  rw [hstat, hd, ha]
  norm_num

theorem over_bad_status :
    (validate_overhang_distance dripDefault 40 .ANTERIOR).status = .FAIL := by
  show (if |(40:ℝ) - 30| > 2.0 * 2 then ValidationStatus.FAIL
    else if |(40:ℝ) - 30| > 2.0 then ValidationStatus.WARN
    else ValidationStatus.PASS) = ValidationStatus.FAIL
  rw [show |(40:ℝ) - 30| = 10 by
    rw [show (40:ℝ) - 30 = 10 by norm_num]
    exact abs_of_nonneg (by norm_num)]
  norm_num

/-- The statuses stored per orientation in the drip-edge section of a report. -/
def dripStatuses (r : EdgeValidationReport) : List (List ValidationStatus) :=
  r.drip_edge_results.map (fun p => p.2.map (fun q => q.status))

/-- The overall status of a report together with its drip-edge statuses. -/
def overallAndDripStatuses (r : EdgeValidationReport) :
    ValidationStatus × List (List ValidationStatus) :=
  (r.overall_status, dripStatuses r)

/-- The four counters, overall status and drip-edge statuses of a report. -/
def reportSnapshot (r : EdgeValidationReport) :
    ℕ × ℕ × ℕ × ℕ × ValidationStatus × List (List ValidationStatus) :=
  (r.total_checks, r.passed_checks, r.warning_checks, r.failed_checks,
   r.overall_status, dripStatuses r)

/-- Claim C2, evaluation at the failing input: a run in which every chamfer
and consistency check passes but the single drip-edge overhang check FAILs
produces a report that contains a FAIL result in `drip_edge_results` yet has
`overall_status = PASS`, because the drip-edge phase never increments
`failed_checks`.  The claim's precedence property (any contained Fail ⇒
overall Fail) is therefore violated by the code. -/
theorem c2_drip_fail_overall_pass :
    (validate_all svdFitUp specDrip cmsGood [] (some [(.ANTERIOR, dmOverhangBad)])).map
      overallAndDripStatuses = some (.PASS, [[.FAIL]]) := by
  simp [validate_all, preDripReport, chamferPhase, squarenessPhase, dripPhase,
    dripStep, dripOverhangStep, dripGroovePosStep, dripDimsStep, dictLookup,
    tally, tallyPassWarn, specDrip, cmsGood, dmOverhangBad,
    overallAndDripStatuses, dripStatuses, EdgeValidationReport.overall_status,
    depth_measGood_status, depth_measGoodPost_status, angle_measGood_status,
    angle_measGoodPost_status, rough_measGood_status, rough_measGoodPost_status,
    cons_measGood_status, over_bad_status]

/-- Claim C9: the drip-edge phase never increments `failed_checks`; each
drip-edge orientation adds exactly its produced results to `total_checks` and
bumps `passed_checks`/`warning_checks` only for PASS/WARN results; hence the
concrete run whose only non-PASS result is a FAIL drip overhang ends with
`failed_checks = 0` and `overall_status = PASS`. -/
theorem c9_drip_phase_frame :
    (∀ (gdt : GDnTSpecification) (specs : List (EdgeOrientation × DripEdgeSpecification))
        (l : List (EdgeOrientation × DripMeasurements)) (r r' : EdgeValidationReport),
      dripPhase gdt specs l r = some r' → r'.failed_checks = r.failed_checks) ∧
    (∀ (ds : DripEdgeSpecification) (gdt : GDnTSpecification) (o : EdgeOrientation)
        (m : DripMeasurements) (r : EdgeValidationReport)
        (results : List ValidationResult) (r2 : EdgeValidationReport),
      dripStep ds gdt o m r = some (results, r2) →
      r2.failed_checks = r.failed_checks ∧
      r2.total_checks = r.total_checks + results.length ∧
      r2.passed_checks = r.passed_checks + countStatus .PASS results ∧
      r2.warning_checks = r.warning_checks + countStatus .WARN results) ∧
    (validate_all svdFitUp specDrip cmsGood [] (some [(.ANTERIOR, dmOverhangBad)])).map
      reportSnapshot = some (8, 7, 0, 0, .PASS, [[.FAIL]]) := by
  refine ⟨?_, ?_, ?_⟩
  · intro gdt specs l r r' h
    exact (dripPhase_spec gdt specs l r r' h).1
  · intro ds gdt o m r results r2 h
    obtain ⟨f, t, p, w, _, _, _⟩ := dripStep_spec ds gdt o m r results r2 h
    exact ⟨f, t, p, w⟩
  · simp [validate_all, preDripReport, chamferPhase, squarenessPhase, dripPhase,
      dripStep, dripOverhangStep, dripGroovePosStep, dripDimsStep, dictLookup,
      tally, tallyPassWarn, specDrip, cmsGood, dmOverhangBad,
      reportSnapshot, dripStatuses, EdgeValidationReport.overall_status,
      depth_measGood_status, depth_measGoodPost_status, angle_measGood_status,
      angle_measGoodPost_status, rough_measGood_status, rough_measGoodPost_status,
      cons_measGood_status, over_bad_status]

/-- Witness for C9: a concrete one-orientation drip-edge phase run with a
FAIL overhang leaves `failed_checks` at 0. -/
theorem c9_drip_phase_frame_witness :
    (dripPhase gdtDefault [(.ANTERIOR, dripDefault)] [(.ANTERIOR, dmOverhangBad)]
      { specification_id := "W" }).map EdgeValidationReport.failed_checks = some 0 := by
  cases hres : dripPhase gdtDefault [(.ANTERIOR, dripDefault)]
      [(.ANTERIOR, dmOverhangBad)] { specification_id := "W" } with
  | none =>
    exact absurd hres (by
      simp [dripPhase, dictLookup, dripStep, dripOverhangStep, dripGroovePosStep,
        dripDimsStep, dmOverhangBad, tallyPassWarn, over_bad_status])
  | some r' =>
    rw [Option.map_some',
      c9_drip_phase_frame.1 gdtDefault [(.ANTERIOR, dripDefault)]
        [(.ANTERIOR, dmOverhangBad)] { specification_id := "W" } r' hres]

/-- Claim C10: in every report returned by `validate_all`, `total_checks`
exceeds the number of stored results by exactly one — the cross-edge profile
consistency check is counted but appended to none of the three result
collections. -/
theorem c10_consistency_not_stored (svdFit : List MeasurementPoint → Vec3)
    (spec : ManufacturingProcessSpec)
    (cms : List (EdgeOrientation × ChamferMeasurement))
    (epd : List (EdgeOrientation × List MeasurementPoint))
    (dms : Option (List (EdgeOrientation × DripMeasurements)))
    (r : EdgeValidationReport)
    (h : validate_all svdFit spec cms epd dms = some r) :
    r.total_checks = 1 + (chamferLen r + squareLen r + dripLen r) := by
  have ht := preDripReport_total svdFit spec cms epd
  have hc := preDripReport_chamferLen svdFit spec cms epd
  have hs := preDripReport_squareLen svdFit spec cms epd
  have hd := preDripReport_dripLen svdFit spec cms epd
  simp only [validate_all] at h
  cases dms with
  | none =>
    rw [Option.some_inj] at h
    subst h
    omega
  | some l =>
    dsimp only at h
    split_ifs at h with hcond
    · rw [Option.some_inj] at h
      subst h
      omega
    · obtain ⟨hf, htd, hcc, hss⟩ :=
        dripPhase_spec spec.gdt_spec spec.drip_edges l (preDripReport svdFit spec cms epd) r h
      have h1 : chamferLen r = chamferLen (preDripReport svdFit spec cms epd) := by
        unfold chamferLen
        rw [hcc]
      have h2 : squareLen r = squareLen (preDripReport svdFit spec cms epd) := by
        unfold squareLen
        rw [hss]
      omega

/-- Witness for C10: an empty run stores no results and counts exactly the
single (NOT_CHECKED) consistency check. -/
theorem c10_consistency_not_stored_witness :
    (validate_all svdFitUp specDrip [] [] none).map
      (fun r => (r.total_checks, chamferLen r + squareLen r + dripLen r)) =
      some (1, 0) := by
  cases hres : validate_all svdFitUp specDrip [] [] none with
  | none =>
    exact absurd hres (by simp [validate_all])
  | some r =>
    rw [Option.map_some']
    have htot := c10_consistency_not_stored svdFitUp specDrip [] [] none r hres
    have hzero : chamferLen r + squareLen r + dripLen r = 0 := by
      simp only [validate_all, Option.some_inj] at hres
      subst hres
      rw [preDripReport_chamferLen, preDripReport_squareLen, preDripReport_dripLen]
      simp
    rw [Option.some_inj]
    rw [htot, hzero]

end StoneSlabCad
